import Mathlib

set_option linter.unusedVariables false
set_option maxRecDepth 10000
set_option maxHeartbeats 1000000

/-
Shallow embedding of the redemption core of the student-offer backend
(entitlements module: state machine, savings calculator, claim / prove /
validate / confirm / void services, and the rate limiter).

Conventions of the embedding:
* Instants (`datetime`) are microseconds since the epoch, as `Nat`;
  `timedelta` arithmetic is exact microsecond arithmetic, `.date()` is
  division by the number of microseconds in a day.
* Python `Decimal` amounts are modelled as `Rat` (the decimal arithmetic
  performed by the code — addition, subtraction, multiplication and
  division by 100 — is exact on the values that occur).
* Opaque UUIDs (users, offers, entitlements, tokens) are `Nat`.
* The key-value store (Redis) and the relational tables are explicit
  association lists carried in a `DB` record; each service operation is a
  function from a `DB` (plus request data and the current instant) to a
  result together with the successor `DB`.  `ValueError` raised by the
  service and caught by the router is an `Except.error` carrying the
  message string.
-/

namespace SVApp

/-- Microseconds per second. -/
def microsPerSec : Nat := 1000000

/-- Microseconds per hour. -/
def microsPerHour : Nat := 3600 * microsPerSec

/-- Microseconds per day. -/
def microsPerDay : Nat := 24 * microsPerHour

/-- Calendar day of an instant (Python `datetime.date()` on a naive
post-epoch datetime). -/
def dayOf (t : Nat) : Nat := t / microsPerDay

/-- Python `datetime.weekday()`: Monday = 0 … Sunday = 6; the epoch day
(1970-01-01) was a Thursday (= 3). -/
def weekdayOf (t : Nat) : Nat := (dayOf t + 3) % 7

/- Constants from `app/shared/constants.py`. -/

/-- Proof-token TTL in seconds (`QR_PROOF_TOKEN_TTL_SECONDS`). -/
def QR_PROOF_TOKEN_TTL_SECONDS : Nat := 30

/-- Void window in hours (`VOID_WINDOW_HOURS`). -/
def VOID_WINDOW_HOURS : Nat := 2

/-- Daily claim cap per (user, offer) (`MAX_DAILY_CLAIMS_PER_OFFER`). -/
def MAX_DAILY_CLAIMS_PER_OFFER : Nat := 1

/- States used by `app/modules/entitlements/state_machine.py` and the
service.  (The stale `app/shared/enums.EntitlementState` lacks these
members; the state machine and service are the code under verification
and consistently use exactly these five states.) -/

/-- Entitlement lifecycle state. -/
inductive EntitlementState where
  | active
  | pending_confirmation
  | used
  | voided
  | expired
deriving DecidableEq, Repr

/-- String value of a state (the `.value` of the Python enum member). -/
def stateValue : EntitlementState → String
  | .active => "active"
  | .pending_confirmation => "pending_confirmation"
  | .used => "used"
  | .voided => "voided"
  | .expired => "expired"

/- Pure state-machine validators (`EntitlementStateMachine`).  Each
returns `(allowed, optional reason)` exactly as the Python methods do;
the implicit `datetime.now(...)` is the explicit `now` argument. -/

/-- Embedding of `EntitlementStateMachine.can_generate_qr`. -/
def can_generate_qr (state : EntitlementState) (expires_at now : Nat) :
    Bool × Option String :=
  if state ≠ EntitlementState.active then
    (false, some ("Cannot generate QR for entitlement in " ++ stateValue state ++ " state"))
  else if now ≥ expires_at then
    (false, some "Entitlement has expired")
  else
    (true, none)

/-- Embedding of `EntitlementStateMachine.can_validate`. -/
def can_validate (state : EntitlementState) : Bool × Option String :=
  if state ≠ EntitlementState.active then
    (false, some ("Cannot validate entitlement in " ++ stateValue state ++ " state"))
  else
    (true, none)

/-- Embedding of `EntitlementStateMachine.can_confirm`. -/
def can_confirm (state : EntitlementState) : Bool × Option String :=
  if state ≠ EntitlementState.pending_confirmation then
    (false, some ("Cannot confirm redemption for entitlement in " ++ stateValue state ++ " state"))
  else
    (true, none)

/-- Embedding of `EntitlementStateMachine.can_void`: state must be USED
and `now` must not be past `used_at + VOID_WINDOW_HOURS`. -/
def can_void (state : EntitlementState) (used_at now : Nat) :
    Bool × Option String :=
  if state ≠ EntitlementState.used then
    (false, some ("Can only void USED entitlements, current state: " ++ stateValue state))
  else if now > used_at + VOID_WINDOW_HOURS * microsPerHour then
    (false, some "Void window expired. Must void within 2 hours of redemption")
  else
    (true, none)

/- Decimal-string parsing, for the percentage branch of the savings
calculator: `Decimal(offer.get('discount_value', '0%').replace('%', ''))`. -/

/-- Python `str.replace` of every `%` with the empty string. -/
def stripPercent (s : String) : String :=
  String.mk (s.data.filter (fun c => c ≠ '%'))

/-- Numeric value of a digit list, most significant first. -/
def natOfDigits (l : List Char) : Nat :=
  l.foldl (fun acc c => acc * 10 + (c.toNat - '0'.toNat)) 0

/-- Embedding of `decimal.Decimal(s)` on plain decimal literals: an
optional sign, then digits with at most one point and at least one digit.
`none` models the `InvalidOperation` exception on any other string. -/
def parseDecimal (s : String) : Option Rat :=
  let l := s.data
  let signed : Bool × List Char :=
    match l with
    | '-' :: rest => (true, rest)
    | '+' :: rest => (false, rest)
    | _ => (false, l)
  let intPart := signed.2.takeWhile (fun c => c ≠ '.')
  let value : Option Rat :=
    match signed.2.dropWhile (fun c => c ≠ '.') with
    | [] =>
      if intPart ≠ [] ∧ intPart.all Char.isDigit then
        some ((natOfDigits intPart : Rat))
      else none
    | _ :: fracPart =>
      if (intPart ≠ [] ∨ fracPart ≠ []) ∧ intPart.all Char.isDigit ∧
          fracPart.all Char.isDigit then
        some ((natOfDigits intPart : Rat) +
          (natOfDigits fracPart : Rat) / ((10 : Rat) ^ fracPart.length))
      else none
  value.map (fun v => if signed.1 then -v else v)

/- Offers, as the service reads them from the `offers` table.  Prices
absent on the row default to 0 (`offer.get('original_price', 0)`); the
optional fields keep their optionality. -/

/-- Offer row. -/
structure Offer where
  id : Nat
  merchant_id : Nat
  title : String
  offer_type : String
  discount_value : Option String
  original_price : Rat
  discounted_price : Rat
  is_active : Bool
  valid_from : Nat
  valid_until : Nat
  /-- Daily time window `(time_valid_from, time_valid_until)` as
  microseconds past midnight, when both are set. -/
  time_valid : Option (Nat × Nat)
  valid_days_of_week : Option (List Nat)
  max_total_claims : Option Nat
  total_claims : Nat
deriving DecidableEq, Repr

/-- Embedding of `EntitlementService._calculate_savings`.  Returns
`(discount_amount, final_amount)`; `none` models the uncaught exception
when the percentage string fails to parse. -/
def calculate_savings (offer : Offer) (total_bill : Rat)
    (discounted_amount : Option Rat) : Option (Rat × Rat) :=
  match discounted_amount with
  | some a => some (total_bill - a, a)
  | none =>
    if offer.offer_type = "percentage" then
      match parseDecimal (stripPercent (offer.discount_value.getD "0%")) with
      | none => none
      | some p =>
        let discount := total_bill * p / 100
        some (discount, total_bill - discount)
    else if offer.offer_type = "bogo" then
      let discount := offer.original_price
      some (discount, total_bill - discount)
    else if offer.offer_type = "bundle" then
      let discount := offer.original_price - offer.discounted_price
      some (discount, offer.discounted_price)
    else
      some (0, total_bill)

/- Definitions taken from the SPEC for refinement comparison. -/

/-- Modelled from the spec: `round_half_even(x, 2)` — round to two
fractional digits, ties to even (the rounding §4.8 prescribes for the
PERCENTAGE branch; the source performs no rounding). -/
def roundHalfEven2 (q : Rat) : Rat :=
  let x := q * 100
  let n : Int := ⌊x⌋
  let r := x - (n : Rat)
  let m : Int :=
    if r < 1/2 then n
    else if r > 1/2 then n + 1
    else if n % 2 = 0 then n else n + 1
  (m : Rat) / 100

/-- An amount has at most two fractional decimal digits. -/
def atMostTwoDp (v : Rat) : Bool := (v * 100).den == 1

/-- Embedding of the `ConfirmRedemptionRequest` pydantic validation:
`total_bill_amount > 0`, `discounted_amount ≥ 0` when present, and both
have at most two fractional digits. -/
def validConfirmRequest (total_bill : Rat) (discounted : Option Rat) : Bool :=
  decide (total_bill > 0) && atMostTwoDp total_bill &&
    (match discounted with
     | none => true
     | some a => decide (a ≥ 0) && atMostTwoDp a)

/- System state: the Redis keyspaces and the relational tables the
entitlements service touches, as explicit association lists. -/

/-- Entitlement row. -/
structure Entitlement where
  id : Nat
  user_id : Nat
  offer_id : Nat
  device_id : Option Nat
  state : EntitlementState
  claimed_at : Nat
  expires_at : Nat
  used_at : Option Nat := none
  voided_at : Option Nat := none
deriving DecidableEq, Repr

/-- Record stored under a proof-token key in Redis. -/
structure TokenData where
  entitlement_id : Nat
  user_id : Nat
  offer_id : Nat
  device_id : Option Nat
  created_at : Nat
deriving DecidableEq, Repr

/-- Stored token together with its absolute expiry (`setex` TTL). -/
structure StoredToken where
  data : TokenData
  expiry : Nat
deriving DecidableEq, Repr

/-- Redemption row. -/
structure Redemption where
  id : Nat
  entitlement_id : Nat
  merchant_id : Nat
  offer_id : Nat
  user_id : Nat
  total_bill_amount : Rat
  discount_amount : Rat
  final_amount : Rat
  offer_type : String
  redeemed_at : Nat
  is_voided : Bool := false
  voided_at : Option Nat := none
  void_reason : Option String := none
deriving DecidableEq, Repr

/-- Database and Redis state visible to the entitlements service.
`merchants` and `users` map ids to names (`none` when the user row has
no `name`). -/
structure DB where
  entitlements : List Entitlement
  offers : List Offer
  redemptions : List Redemption
  merchants : List (Nat × String)
  users : List (Nat × Option String)
  tokenKV : List (Nat × StoredToken)
  dailyKV : List (Nat × Nat × Nat)
  nextEntitlementId : Nat
  nextRedemptionId : Nat
deriving DecidableEq, Repr

/-- Lookup of an entitlement row by id (`_get_entitlement`). -/
def getEntitlement (db : DB) (id : Nat) : Option Entitlement :=
  db.entitlements.find? (fun e => e.id == id)

/-- Lookup of an offer row by id (`_get_offer`). -/
def getOffer (db : DB) (id : Nat) : Option Offer :=
  db.offers.find? (fun o => o.id == id)

/-- Redis `get` on a proof-token key: the value is visible only before
its expiry instant. -/
def kvGetToken (db : DB) (tok : Nat) (now : Nat) : Option TokenData :=
  match db.tokenKV.find? (fun p => p.1 == tok) with
  | some (_, st) => if now < st.expiry then some st.data else none
  | none => none

/-- Supabase `update ... eq('id', id)` on the entitlements table. -/
def updateEntitlements (l : List Entitlement) (id : Nat)
    (f : Entitlement → Entitlement) : List Entitlement :=
  l.map (fun e => if e.id == id then f e else e)

/- Service responses (the pydantic response models, structural fields
only). -/

/-- Response of `claim_entitlement`. -/
structure ClaimEntitlementResponse where
  entitlement_id : Nat
  offer_id : Nat
  expires_at : Nat
deriving DecidableEq, Repr

/-- Response of `generate_proof_token`. -/
structure GenerateProofResponse where
  proof_token : Nat
  expires_at : Nat
  ttl_seconds : Nat
deriving DecidableEq, Repr

/-- Response of `validate_proof_token`. -/
structure ValidateTokenResponse where
  success : Bool
  status : String
  reason : Option String := none
  entitlement_id : Option Nat := none
  offer_title : Option String := none
  offer_type : Option String := none
  discount_value : Option String := none
  merchant_name : Option String := none
  student_name : Option String := none
deriving DecidableEq, Repr

/-- Response of `confirm_redemption`. -/
structure ConfirmRedemptionResponse where
  redemption_id : Nat
  entitlement_id : Nat
  total_bill : Rat
  discount_amount : Rat
  final_amount : Rat
  savings : Rat
  redeemed_at : Nat
deriving DecidableEq, Repr

/-- Response of `void_redemption`. -/
structure VoidRedemptionResponse where
  entitlement_id : Nat
  voided_at : Nat
deriving DecidableEq, Repr

/- The service operations.  Each mirrors the corresponding
`EntitlementService` coroutine statement by statement; a raised
`ValueError` (mapped by the router to a 400) is `Except.error` with the
raised message, and an uncaught exception mapped by the router to a
generic 500 carries the router's generic detail string. -/

/-- Embedding of `EntitlementService._check_daily_limit`: the Redis
daily-claim marker is consulted first; on a miss, the database is asked
for today's rows for (user, offer) whose state is not VOIDED. -/
def check_daily_limit (db : DB) (user_id offer_id : Nat) (now : Nat) : Bool :=
  if (db.dailyKV.find? (fun k =>
      k.1 == user_id && k.2.1 == offer_id && k.2.2 == dayOf now)).isSome then
    false
  else
    let dayStart := dayOf now * microsPerDay
    let dayEnd := dayStart + 86399 * microsPerSec
    let todays := db.entitlements.filter (fun e =>
      e.user_id == user_id && e.offer_id == offer_id &&
      decide (dayStart ≤ e.claimed_at) && decide (e.claimed_at ≤ dayEnd) &&
      e.state != EntitlementState.voided)
    todays.length < MAX_DAILY_CLAIMS_PER_OFFER

/-- Embedding of `EntitlementService.claim_entitlement`.  Offer validity
instants and the optional daily time window are carried as
microsecond values (the service parses them from ISO strings). -/
def claim_entitlement (db : DB) (user_id offer_id : Nat)
    (device_id : Option Nat) (now : Nat) :
    Except String ClaimEntitlementResponse × DB :=
  if check_daily_limit db user_id offer_id now = false then
    (Except.error "Daily claim limit reached for this offer", db)
  else
    match getOffer db offer_id with
    | none => (Except.error "Offer not found", db)
    | some offer =>
      let timeOk : Bool :=
        match offer.time_valid with
        | some (tf, tu) =>
          decide (tf ≤ now % microsPerDay) && decide (now % microsPerDay ≤ tu)
        | none => true
      let dayOk : Bool :=
        match offer.valid_days_of_week with
        | some days => days.isEmpty || days.contains (weekdayOf now)
        | none => true
      let capOk : Bool :=
        match offer.max_total_claims with
        | some m => m == 0 || decide (offer.total_claims < m)
        | none => true
      if offer.is_active = false then
        (Except.error "Offer is not active", db)
      else if now < offer.valid_from ∨ offer.valid_until < now then
        (Except.error "Offer is not currently valid", db)
      else if timeOk = false then
        (Except.error "Offer is not valid at this time", db)
      else if dayOk = false then
        (Except.error "Offer is not valid on this day", db)
      else if capOk = false then
        (Except.error "Offer claim limit reached", db)
      else
        let expires_at := dayOf now * microsPerDay + 86399 * microsPerSec
        let ent : Entitlement :=
          { id := db.nextEntitlementId, user_id, offer_id, device_id,
            state := .active, claimed_at := now, expires_at }
        let db2 : DB := { db with
          entitlements := db.entitlements ++ [ent],
          nextEntitlementId := db.nextEntitlementId + 1,
          offers := db.offers.map (fun o =>
            if o.id == offer_id then { o with total_claims := o.total_claims + 1 }
            else o),
          dailyKV := (user_id, offer_id, dayOf now) :: db.dailyKV }
        (Except.ok { entitlement_id := ent.id, offer_id, expires_at }, db2)

/-- Embedding of `EntitlementService.generate_proof_token`.  The random
`secrets.token_urlsafe` output is the `freshToken` argument; the token
record is stored under it with TTL `QR_PROOF_TOKEN_TTL_SECONDS`. -/
def generate_proof_token (db : DB) (entitlement_id user_id : Nat) (now : Nat)
    (freshToken : Nat) : Except String GenerateProofResponse × DB :=
  match getEntitlement db entitlement_id with
  | none => (Except.error "Entitlement not found", db)
  | some ent =>
    if ent.user_id ≠ user_id then
      (Except.error "Unauthorized: entitlement belongs to another user", db)
    else
      let cg := can_generate_qr ent.state ent.expires_at now
      if cg.1 = false then
        (Except.error (cg.2.getD ""), db)
      else
        let td : TokenData :=
          { entitlement_id, user_id, offer_id := ent.offer_id,
            device_id := ent.device_id, created_at := now }
        let stored : StoredToken :=
          { data := td, expiry := now + QR_PROOF_TOKEN_TTL_SECONDS * microsPerSec }
        let db2 : DB := { db with tokenKV := (freshToken, stored) :: db.tokenKV }
        (Except.ok
          { proof_token := freshToken,
            expires_at := now + QR_PROOF_TOKEN_TTL_SECONDS * microsPerSec,
            ttl_seconds := QR_PROOF_TOKEN_TTL_SECONDS }, db2)

/-- Embedding of `EntitlementService.validate_proof_token`: Redis `get`
on the token key (never a delete), then state-machine check, expiry
check, display lookups, and the update to PENDING_CONFIRMATION.  A
lookup crash caught by the router yields the generic
"Validation failed" FAIL response. -/
def validate_proof_token (db : DB) (proof_token : Nat) (now : Nat) :
    ValidateTokenResponse × DB :=
  match kvGetToken db proof_token now with
  | none =>
    ({ success := false, status := "FAIL",
       reason := some "Invalid or expired token" }, db)
  | some td =>
    match getEntitlement db td.entitlement_id with
    | none =>
      ({ success := false, status := "FAIL",
         reason := some "Entitlement not found" }, db)
    | some ent =>
      let cv := can_validate ent.state
      if cv.1 = false then
        ({ success := false, status := "FAIL", reason := cv.2 }, db)
      else if now ≥ ent.expires_at then
        ({ success := false, status := "FAIL",
           reason := some "Entitlement has expired" }, db)
      else
        match getOffer db ent.offer_id with
        | none => ({ success := false, status := "FAIL",
                     reason := some "Validation failed" }, db)
        | some offer =>
          match db.merchants.find? (fun m => m.1 == offer.merchant_id) with
          | none => ({ success := false, status := "FAIL",
                       reason := some "Validation failed" }, db)
          | some merchant =>
            match db.users.find? (fun u => u.1 == ent.user_id) with
            | none => ({ success := false, status := "FAIL",
                         reason := some "Validation failed" }, db)
            | some user =>
              let db2 : DB := { db with
                entitlements := updateEntitlements db.entitlements
                  td.entitlement_id
                  (fun e => { e with state := .pending_confirmation }) }
              ({ success := true, status := "PASS",
                 entitlement_id := some td.entitlement_id,
                 offer_title := some offer.title,
                 offer_type := some offer.offer_type,
                 discount_value := offer.discount_value,
                 merchant_name := some merchant.2,
                 student_name := some (user.2.getD "Student") }, db2)

/-- Embedding of `EntitlementService.confirm_redemption`: requires
PENDING_CONFIRMATION, computes savings, inserts the redemption row and
moves the entitlement to USED with `used_at = now`. -/
def confirm_redemption (db : DB) (entitlement_id : Nat)
    (total_bill_amount : Rat) (discounted_amount : Option Rat) (now : Nat) :
    Except String ConfirmRedemptionResponse × DB :=
  match getEntitlement db entitlement_id with
  | none => (Except.error "Entitlement not found", db)
  | some ent =>
    let cc := can_confirm ent.state
    if cc.1 = false then
      (Except.error (cc.2.getD ""), db)
    else
      match getOffer db ent.offer_id with
      | none => (Except.error "Failed to confirm redemption", db)
      | some offer =>
        match calculate_savings offer total_bill_amount discounted_amount with
        | none => (Except.error "Failed to confirm redemption", db)
        | some (discount, final) =>
          let r : Redemption :=
            { id := db.nextRedemptionId, entitlement_id,
              merchant_id := offer.merchant_id, offer_id := offer.id,
              user_id := ent.user_id, total_bill_amount,
              discount_amount := discount, final_amount := final,
              offer_type := offer.offer_type, redeemed_at := now }
          let db2 : DB := { db with
            redemptions := db.redemptions ++ [r],
            nextRedemptionId := db.nextRedemptionId + 1,
            entitlements := updateEntitlements db.entitlements entitlement_id
              (fun e => { e with state := .used, used_at := some now }) }
          (Except.ok
            { redemption_id := r.id, entitlement_id,
              total_bill := total_bill_amount, discount_amount := discount,
              final_amount := final, savings := discount,
              redeemed_at := now }, db2)

/-- Embedding of `EntitlementService.void_redemption`.  The `user_id`
argument is accepted "for authorization" but the body never reads it. -/
def void_redemption (db : DB) (entitlement_id : Nat) (reason : String)
    (user_id : Option Nat) (now : Nat) :
    Except String VoidRedemptionResponse × DB :=
  match getEntitlement db entitlement_id with
  | none => (Except.error "Entitlement not found", db)
  | some ent =>
    match ent.used_at with
    | none => (Except.error "Entitlement has not been used", db)
    | some used_at =>
      let cv := can_void ent.state used_at now
      if cv.1 = false then
        (Except.error (cv.2.getD ""), db)
      else if dayOf now ≠ dayOf used_at then
        (Except.error "Cannot void redemption from a different day", db)
      else
        match db.redemptions.find? (fun r =>
            r.entitlement_id == entitlement_id && r.is_voided == false) with
        | none => (Except.error "Redemption record not found", db)
        | some red =>
          let db2 : DB := { db with
            redemptions := db.redemptions.map (fun r =>
              if r.id == red.id then
                { r with
                  is_voided := true
                  voided_at := some now
                  void_reason := some reason }
              else r),
            entitlements := updateEntitlements db.entitlements entitlement_id
              (fun e => { e with state := .voided, voided_at := some now }) }
          (Except.ok { entitlement_id, voided_at := now }, db2)

/- Rate limiter (`app/core/ratelimit.py`).  A caller's counter key is
either readable with an optional current count, or the KV layer is
down / raising, in which case every path falls through to "allow". -/

/-- Velocity cap (`RateLimiter.VELOCITY_LIMIT`). -/
def VELOCITY_LIMIT : Nat := 10

/-- Velocity window seconds (`RateLimiter.VELOCITY_WINDOW`). -/
def VELOCITY_WINDOW : Nat := 60

/-- Default daily quota (`RateLimiter.DAILY_LIMIT`). -/
def DAILY_LIMIT : Nat := 150

/-- State of one rate-limit counter key. -/
inductive KVCounter where
  | avail (count : Option Nat)
  | down
deriving DecidableEq, Repr

/-- Embedding of `RateLimiter._check_velocity_limit`: returns
`(allowed, new counter)`; an unavailable KV fails open. -/
def check_velocity_limit : KVCounter → Bool × KVCounter
  | .avail none => (true, .avail (some 1))
  | .avail (some c) =>
    if c ≥ VELOCITY_LIMIT then (false, .avail (some c))
    else (true, .avail (some (c + 1)))
  | .down => (true, .down)

/-- Embedding of `RateLimiter._check_daily_quota`. -/
def check_daily_quota (daily_limit : Nat) : KVCounter → Bool × KVCounter
  | .avail none => (true, .avail (some 1))
  | .avail (some c) =>
    if c ≥ daily_limit then (false, .avail (some c))
    else (true, .avail (some (c + 1)))
  | .down => (true, .down)

/-- Embedding of `RateLimiter.check_limits`: velocity first, then the
daily quota; `none` for the override picks `DAILY_LIMIT`. -/
def check_limits (velocity daily : KVCounter) (daily_limit : Option Nat) :
    Bool × KVCounter × KVCounter :=
  let lim := daily_limit.getD DAILY_LIMIT
  let v := check_velocity_limit velocity
  if v.1 = false then (false, v.2, daily)
  else
    let d := check_daily_quota lim daily
    (d.1, v.2, d.2)

/-- Embedding of the `POST /entitlements/claim` route handler
(`router.claim_entitlement`): it calls the service directly.  The
caller's rate-limit counters are part of the ambient Redis state; the
handler contains no call into `RateLimiter`, so they pass through
untouched. -/
def claim_route (db : DB) (velocity daily : KVCounter)
    (user_id offer_id : Nat) (device_id : Option Nat) (now : Nat) :
    (Except String ClaimEntitlementResponse × DB) × KVCounter × KVCounter :=
  (claim_entitlement db user_id offer_id device_id now, velocity, daily)

/- Concrete fixtures: a 20 % percentage offer exercised through the full
claim → prove → validate → confirm → void pipeline, plus bundle / bogo
offers sitting behind an entitlement in PENDING_CONFIRMATION.  These
states feed the witnesses and counterexamples. -/

/-- A 20 % percentage offer. -/
def offerPct : Offer :=
  { id := 10, merchant_id := 1, title := "O", offer_type := "percentage",
    discount_value := some "20%", original_price := 0, discounted_price := 0,
    is_active := true, valid_from := 0, valid_until := 10^18,
    time_valid := none, valid_days_of_week := none, max_total_claims := none,
    total_claims := 0 }

/-- Initial state: one merchant, one user, the percentage offer, no
entitlements. -/
def db0 : DB :=
  { entitlements := [], offers := [offerPct], redemptions := [],
    merchants := [(1, "M")], users := [(7, some "Stu")], tokenKV := [],
    dailyKV := [], nextEntitlementId := 100, nextRedemptionId := 500 }

/-- A morning instant (10:00 on an arbitrary day). -/
def t0 : Nat := 20000 * microsPerDay + 10 * microsPerHour

/-- State after user 7 claims offer 10 at `t0`. -/
def db1 : DB := (claim_entitlement db0 7 10 none t0).2

/-- State after proving entitlement 100 (token 555 issued). -/
def db2 : DB := (generate_proof_token db1 100 7 (t0 + 2) 555).2

/-- State after the merchant validates token 555 (PASS). -/
def db3 : DB := (validate_proof_token db2 555 (t0 + 3)).2

/-- State after confirming entitlement 100 with a 50.00 bill. -/
def db4 : DB := (confirm_redemption db3 100 50 none (t0 + 5)).2

/-- State after voiding entitlement 100 the same day. -/
def db5 : DB := (void_redemption db4 100 "customer changed order" none (t0 + 6)).2

/-- Bundle offer: original price 100, bundle price 75. -/
def offerBundle : Offer :=
  { id := 20, merchant_id := 1, title := "B", offer_type := "bundle",
    discount_value := none, original_price := 100, discounted_price := 75,
    is_active := true, valid_from := 0, valid_until := 10^18,
    time_valid := none, valid_days_of_week := none, max_total_claims := none,
    total_claims := 0 }

/-- Bogo offer whose "one free" item costs 30. -/
def offerBogo : Offer :=
  { id := 30, merchant_id := 1, title := "G", offer_type := "bogo",
    discount_value := none, original_price := 30, discounted_price := 0,
    is_active := true, valid_from := 0, valid_until := 10^18,
    time_valid := none, valid_days_of_week := none, max_total_claims := none,
    total_claims := 0 }

/-- A 15 % percentage offer (its discount of a 10.01 bill is 1.5015). -/
def offerPct15 : Offer :=
  { offerPct with id := 40, discount_value := some "15" }

/-- An entitlement sitting in PENDING_CONFIRMATION for a given offer. -/
def pendingEnt (offer_id : Nat) : Entitlement :=
  { id := 1, user_id := 7, offer_id, device_id := none,
    state := .pending_confirmation, claimed_at := t0,
    expires_at := dayOf t0 * microsPerDay + 86399 * microsPerSec }

/-- State holding a PENDING_CONFIRMATION entitlement on the bundle offer. -/
def dbBundle : DB :=
  { db0 with offers := [offerBundle], entitlements := [pendingEnt 20] }

/-- State holding a PENDING_CONFIRMATION entitlement on the bogo offer. -/
def dbBogo : DB :=
  { db0 with offers := [offerBogo], entitlements := [pendingEnt 30] }

/-- Response produced by confirming entitlement 100 with a 50.00 bill. -/
def respC : ConfirmRedemptionResponse :=
  { redemption_id := 500
    entitlement_id := 100
    total_bill := 50
    discount_amount := 10
    final_amount := 40
    savings := 10
    redeemed_at := t0 + 5 }

/-- Response produced by proving entitlement 100 with token 555. -/
def proofResp : GenerateProofResponse :=
  { proof_token := 555
    expires_at := (t0 + 2) + QR_PROOF_TOKEN_TTL_SECONDS * microsPerSec
    ttl_seconds := QR_PROOF_TOKEN_TTL_SECONDS }

/-- The USED entitlement row sitting inside `db4`. -/
def entUsed100 : Entitlement :=
  { id := 100
    user_id := 7
    offer_id := 10
    device_id := none
    state := .used
    claimed_at := t0
    expires_at := 20000 * microsPerDay + 86399 * microsPerSec
    used_at := some (t0 + 5)
    voided_at := none }

end SVApp

/- Helper lemmas shared by the claim theorems below. -/

namespace SVApp

/-- Finding by id after an id-preserving targeted update returns the
updated row. -/
theorem find?_updateEntitlements (l : List Entitlement) (id : Nat)
    (f : Entitlement → Entitlement) (hf : ∀ e, (f e).id = e.id) :
    (updateEntitlements l id f).find? (fun e => e.id == id) =
      (l.find? (fun e => e.id == id)).map f := by
  induction l with
  | nil => rfl
  | cons a tl ih =>
    by_cases h : a.id = id
    · simp [updateEntitlements, List.find?_cons, h, hf]
    · simp only [updateEntitlements, List.map_cons] at *
      rw [if_neg (by simp [h])]
      rw [List.find?_cons, List.find?_cons]
      have hb : (a.id == id) = false := by simp [h]
      simp only [hb, cond_false]
      exact ih

/-- Full reduction of `validate_proof_token` on its success path. -/
theorem validate_success_run (db : DB) (tok now : Nat) (td : TokenData)
    (ent : Entitlement) (offer : Offer) (merchant : Nat × String)
    (user : Nat × Option String)
    (hkv : kvGetToken db tok now = some td)
    (hent : getEntitlement db td.entitlement_id = some ent)
    (hst : ent.state = EntitlementState.active)
    (hexp : ¬ now ≥ ent.expires_at)
    (hof : getOffer db ent.offer_id = some offer)
    (hm : db.merchants.find? (fun m => m.1 == offer.merchant_id) = some merchant)
    (hu : db.users.find? (fun u => u.1 == ent.user_id) = some user) :
    validate_proof_token db tok now =
      ({ success := true
         status := "PASS"
         entitlement_id := some td.entitlement_id
         offer_title := some offer.title
         offer_type := some offer.offer_type
         discount_value := offer.discount_value
         merchant_name := some merchant.2
         student_name := some (user.2.getD "Student") },
       { db with
         entitlements := updateEntitlements db.entitlements td.entitlement_id
           (fun e => { e with state := .pending_confirmation }) }) := by
  simp [validate_proof_token, hkv, hent, can_validate, hst, hexp, hof, hm, hu]

/-- A successful claim pushes the (user, offer, day) marker onto the
daily-claim keyspace. -/
theorem claim_ok_dailyKV (db : DB) (u o : Nat) (dev : Option Nat) (now : Nat)
    (resp : ClaimEntitlementResponse) (db' : DB)
    (hok : claim_entitlement db u o dev now = (Except.ok resp, db')) :
    db'.dailyKV = (u, o, dayOf now) :: db.dailyKV := by
  simp only [claim_entitlement] at hok
  repeat' split at hok
  all_goals simp_all
  obtain ⟨h1, h2⟩ := hok
  subst h2
  rfl

/-- Voiding never touches the daily-claim keyspace. -/
theorem void_keeps_dailyKV (db : DB) (eid : Nat) (reason : String)
    (uid : Option Nat) (now : Nat) :
    ((void_redemption db eid reason uid now).2).dailyKV = db.dailyKV := by
  unfold void_redemption
  dsimp only
  repeat' split
  all_goals rfl

/-- A second same-day claim after a successful claim is rejected by the
daily limit. -/
theorem reclaim_same_day_rejected (db : DB) (u o : Nat) (dev dev2 : Option Nat)
    (now now2 : Nat) (resp : ClaimEntitlementResponse) (db' : DB)
    (hok : claim_entitlement db u o dev now = (Except.ok resp, db'))
    (hday : dayOf now2 = dayOf now) :
    (claim_entitlement db' u o dev2 now2).1 =
      Except.error "Daily claim limit reached for this offer" := by
  have hd := claim_ok_dailyKV db u o dev now resp db' hok
  have hlim : check_daily_limit db' u o now2 = false := by
    unfold check_daily_limit
    rw [hd]
    simp [List.find?_cons, hday]
  simp [claim_entitlement, hlim]

/-- The savings returned by `_calculate_savings` sum back to the bill in
every branch except BUNDLE. -/
theorem calculate_savings_sum (offer : Offer) (tb : Rat) (da : Option Rat)
    (d f : Rat) (h : calculate_savings offer tb da = some (d, f))
    (hnb : da.isSome = true ∨ offer.offer_type ≠ "bundle") :
    f + d = tb := by
  cases da with
  | some a =>
    simp [calculate_savings] at h
    obtain ⟨h1, h2⟩ := h
    subst h1
    subst h2
    ring
  | none =>
    rcases hnb with hs | hty
    · simp at hs
    by_cases hp : offer.offer_type = "percentage"
    · cases hq : parseDecimal (stripPercent (offer.discount_value.getD "0%")) with
      | none => simp [calculate_savings, hp, hq] at h
      | some p =>
        simp [calculate_savings, hp, hq] at h
        obtain ⟨h1, h2⟩ := h
        subst h1
        subst h2
        ring
    · by_cases hb : offer.offer_type = "bogo"
      · simp [calculate_savings, hp, hb] at h
        obtain ⟨h1, h2⟩ := h
        subst h1
        subst h2
        ring
      · simp [calculate_savings, hp, hb, hty] at h
        obtain ⟨h1, h2⟩ := h
        subst h1
        subst h2
        ring

end SVApp

/- Claim theorems. -/

namespace SVApp

/-- C1 (amended): `validate_proof_token` reads the proof token with a
plain KV `get` and never deletes it; after a PASS the entitlement has
left ACTIVE, so an immediate second Validate of the same token is
rejected — with the state-machine reason
"Cannot validate entitlement in pending_confirmation state", not the
token-consumed reason "Invalid or expired token" — and the token is
still present in the KV. -/
theorem validate_second_rejected_by_state (db : DB) (tok now : Nat)
    (h : (validate_proof_token db tok now).1.status = "PASS") :
    (validate_proof_token (validate_proof_token db tok now).2 tok now).1.success = false ∧
    (validate_proof_token (validate_proof_token db tok now).2 tok now).1.reason =
      some "Cannot validate entitlement in pending_confirmation state" ∧
    ((validate_proof_token db tok now).2).tokenKV = db.tokenKV := by
  cases hkv : kvGetToken db tok now with
  | none => simp [validate_proof_token, hkv] at h
  | some td =>
    cases hent : getEntitlement db td.entitlement_id with
    | none => simp [validate_proof_token, hkv, hent] at h
    | some ent =>
      by_cases hst : ent.state = EntitlementState.active
      · by_cases hexp : now ≥ ent.expires_at
        · simp [validate_proof_token, hkv, hent, can_validate, hst, hexp] at h
        · cases hof : getOffer db ent.offer_id with
          | none =>
            simp [validate_proof_token, hkv, hent, can_validate, hst, hexp, hof] at h
          | some offer =>
            cases hm : db.merchants.find? (fun m => m.1 == offer.merchant_id) with
            | none =>
              simp [validate_proof_token, hkv, hent, can_validate, hst, hexp, hof, hm] at h
            | some merchant =>
              cases hu : db.users.find? (fun u => u.1 == ent.user_id) with
              | none =>
                simp [validate_proof_token, hkv, hent, can_validate, hst, hexp, hof,
                  hm, hu] at h
              | some user =>
                have hrun := validate_success_run db tok now td ent offer merchant user
                  hkv hent hst hexp hof hm hu
                rw [hrun]
                have hkv2 : kvGetToken
                    { db with
                      entitlements := updateEntitlements db.entitlements td.entitlement_id
                        (fun e => { e with state := .pending_confirmation }) }
                    tok now = some td := hkv
                have hent2 : getEntitlement
                    { db with
                      entitlements := updateEntitlements db.entitlements td.entitlement_id
                        (fun e => { e with state := .pending_confirmation }) }
                    td.entitlement_id =
                    some { ent with state := .pending_confirmation } := by
                  show (updateEntitlements db.entitlements td.entitlement_id
                      (fun e => { e with state := .pending_confirmation })).find?
                      (fun e => e.id == td.entitlement_id) = _
                  rw [find?_updateEntitlements db.entitlements td.entitlement_id
                    (fun e => { e with state := .pending_confirmation }) (fun e => rfl)]
                  rw [show db.entitlements.find? (fun e => e.id == td.entitlement_id) =
                    some ent from hent]
                  rfl
                refine ⟨?_, ?_, rfl⟩
                · simp [validate_proof_token, hkv2, hent2, can_validate]
                · simp [validate_proof_token, hkv2, hent2, can_validate]
                  rfl
      · simp [validate_proof_token, hkv, hent, can_validate, hst] at h

/-- C1 witness: on the concrete pipeline state `db2` the first Validate
of token 555 PASSes, and the theorem's conclusions hold there. -/
theorem validate_second_rejected_by_state_witness :
    (validate_proof_token (validate_proof_token db2 555 (t0 + 3)).2 555 (t0 + 3)).1.success = false ∧
    (validate_proof_token (validate_proof_token db2 555 (t0 + 3)).2 555 (t0 + 3)).1.reason =
      some "Cannot validate entitlement in pending_confirmation state" ∧
    ((validate_proof_token db2 555 (t0 + 3)).2).tokenKV = db2.tokenKV :=
  validate_second_rejected_by_state db2 555 (t0 + 3) (by with_unfolding_all rfl)

/-- C1 counterexample: after a PASS on token 555, the second Validate of
the same token returns FAIL with a reason different from
"Invalid or expired token" (the claim's INVALID_OR_EXPIRED), and the
token is still live in the KV — it was not consumed by get-and-delete. -/
theorem validate_replay_cex :
    (validate_proof_token db2 555 (t0 + 3)).1.status = "PASS" ∧
    (validate_proof_token db3 555 (t0 + 4)).1.status = "FAIL" ∧
    (validate_proof_token db3 555 (t0 + 4)).1.reason ≠ some "Invalid or expired token" ∧
    (validate_proof_token db3 555 (t0 + 4)).1.reason =
      some "Cannot validate entitlement in pending_confirmation state" ∧
    (kvGetToken db3 555 (t0 + 4)).isSome = true := by
  refine ⟨?_, ?_, ?_, ?_, ?_⟩ <;> with_unfolding_all decide

end SVApp

namespace SVApp

/-- C2 (amended): every redemption created by Confirm satisfies
final_amount + discount_amount = total_bill whenever the merchant
supplied the final amount or the offer is not a BUNDLE; the amounts are
the exact unrounded decimals (no two-fractional-digit rounding is
applied).  For a BUNDLE with no merchant final, the code instead returns
final = discounted_price, so the sum equals original_price rather than
the bill. -/
theorem confirm_sum_invariant_nonbundle (db : DB) (eid : Nat) (tb : Rat)
    (da : Option Rat) (now : Nat) (resp : ConfirmRedemptionResponse) (db' : DB)
    (hok : confirm_redemption db eid tb da now = (Except.ok resp, db'))
    (hnb : da.isSome = true ∨ ∀ o ∈ db.offers, o.offer_type ≠ "bundle") :
    resp.final_amount + resp.discount_amount = tb ∧
    resp.total_bill = tb ∧
    ∃ r, db'.redemptions = db.redemptions ++ [r] ∧
      r.total_bill_amount = tb ∧ r.discount_amount = resp.discount_amount ∧
      r.final_amount = resp.final_amount := by
  cases hent : getEntitlement db eid with
  | none => simp [confirm_redemption, hent] at hok
  | some ent =>
    by_cases hst : ent.state = EntitlementState.pending_confirmation
    · cases hof : getOffer db ent.offer_id with
      | none => simp [confirm_redemption, hent, can_confirm, hst, hof] at hok
      | some offer =>
        cases hcs : calculate_savings offer tb da with
        | none => simp [confirm_redemption, hent, can_confirm, hst, hof, hcs] at hok
        | some df =>
          obtain ⟨dAmt, fAmt⟩ := df
          have hsum : fAmt + dAmt = tb := by
            apply calculate_savings_sum offer tb da dAmt fAmt hcs
            rcases hnb with h | h
            · exact Or.inl h
            · exact Or.inr (h offer (List.mem_of_find?_eq_some hof))
          have hrun : confirm_redemption db eid tb da now =
              (Except.ok { redemption_id := db.nextRedemptionId
                           entitlement_id := eid
                           total_bill := tb
                           discount_amount := dAmt
                           final_amount := fAmt
                           savings := dAmt
                           redeemed_at := now },
               { db with
                 redemptions := db.redemptions ++
                   [{ id := db.nextRedemptionId
                      entitlement_id := eid
                      merchant_id := offer.merchant_id
                      offer_id := offer.id
                      user_id := ent.user_id
                      total_bill_amount := tb
                      discount_amount := dAmt
                      final_amount := fAmt
                      offer_type := offer.offer_type
                      redeemed_at := now }]
                 nextRedemptionId := db.nextRedemptionId + 1
                 entitlements := updateEntitlements db.entitlements eid
                   (fun e => { e with state := .used, used_at := some now }) }) := by
            simp [confirm_redemption, hent, can_confirm, hst, hof, hcs]
          rw [hrun] at hok
          have hr := congrArg Prod.fst hok
          have hdb := congrArg Prod.snd hok
          simp only at hr hdb
          obtain rfl : _ = resp := Except.ok.inj hr
          subst hdb
          refine ⟨hsum, rfl, ?_⟩
          exact ⟨_, rfl, rfl, rfl, rfl⟩
    · simp [confirm_redemption, hent, can_confirm, hst] at hok

/-- C2 witness: confirming the 20 % offer with a 50.00 bill yields
final 40 + discount 10 = 50 and appends exactly that redemption row. -/
theorem confirm_sum_invariant_witness :
    respC.final_amount + respC.discount_amount = 50 ∧
    respC.total_bill = 50 ∧
    ∃ r, db4.redemptions = db3.redemptions ++ [r] ∧
      r.total_bill_amount = 50 ∧ r.discount_amount = respC.discount_amount ∧
      r.final_amount = respC.final_amount :=
  confirm_sum_invariant_nonbundle db3 100 50 none (t0 + 5) respC db4
    (by with_unfolding_all rfl) (Or.inr (by with_unfolding_all decide))

/-- C2 counterexample: confirming a BUNDLE offer (original 100, bundle
price 75) with a 90.00 bill records final 75 and discount 25, whose sum
is 100 ≠ 90 — the claimed invariant and the claimed
final = total_bill − discount both fail; moreover a 15 % discount of a
10.01 bill is 1.5015, which does not carry exactly two fractional
digits. -/
theorem confirm_bundle_sum_cex :
    (confirm_redemption dbBundle 1 90 none (t0 + 5)).1 =
      Except.ok { redemption_id := 500
                  entitlement_id := 1
                  total_bill := 90
                  discount_amount := 25
                  final_amount := 75
                  savings := 25
                  redeemed_at := t0 + 5 } ∧
    (75 : Rat) + 25 ≠ 90 ∧
    (calculate_savings offerPct15 (1001/100) none).map Prod.fst = some (15015/10000) ∧
    atMostTwoDp (15015/10000) = false := by
  refine ⟨by with_unfolding_all rfl, by norm_num, by with_unfolding_all rfl,
    by with_unfolding_all rfl⟩

end SVApp

namespace SVApp

/-- C3 (amended): an immediate same-day re-Claim after a successful
Claim is rejected with the daily-limit error; but voiding does NOT
re-enable a same-day claim, because `void_redemption` leaves the Redis
daily-claim marker untouched and the marker alone makes
`_check_daily_limit` reject (only the database fallback query excludes
VOIDED rows). -/
theorem daily_limit_blocks_reclaim_and_void_preserves_marker :
    (∀ (db : DB) (u o : Nat) (dev dev2 : Option Nat) (now now2 : Nat)
       (resp : ClaimEntitlementResponse) (db' : DB),
       claim_entitlement db u o dev now = (Except.ok resp, db') →
       dayOf now2 = dayOf now →
       (claim_entitlement db' u o dev2 now2).1 =
         Except.error "Daily claim limit reached for this offer") ∧
    (∀ (db : DB) (eid : Nat) (reason : String) (uid : Option Nat) (now : Nat),
       ((void_redemption db eid reason uid now).2).dailyKV = db.dailyKV) :=
  ⟨reclaim_same_day_rejected, void_keeps_dailyKV⟩

/-- C3 witness: the concrete pipeline — user 7 claims offer 10 at `t0`
and the same-day re-claim is rejected; voiding on `db4` preserves the
marker list. -/
theorem daily_limit_witness :
    (claim_entitlement db1 7 10 none (t0 + 1)).1 =
      Except.error "Daily claim limit reached for this offer" ∧
    ((void_redemption db4 100 "customer changed order" none (t0 + 6)).2).dailyKV =
      db4.dailyKV :=
  ⟨daily_limit_blocks_reclaim_and_void_preserves_marker.1 db0 7 10 none none t0 (t0 + 1)
    { entitlement_id := 100
      offer_id := 10
      expires_at := 20000 * microsPerDay + 86399 * microsPerSec }
    db1 (by with_unfolding_all rfl) (by decide),
   daily_limit_blocks_reclaim_and_void_preserves_marker.2 db4 100
     "customer changed order" none (t0 + 6)⟩

/-- C3 counterexample: in `db5` the entitlement was voided the same day,
yet a fresh same-day Claim is still rejected with the daily-limit error —
contradicting the claim that it would succeed. -/
theorem reclaim_after_void_cex :
    (getEntitlement db5 100).map (fun e => e.state) = some EntitlementState.voided ∧
    dayOf (t0 + 7) = dayOf t0 ∧
    (claim_entitlement db5 7 10 none (t0 + 7)).1 =
      Except.error "Daily claim limit reached for this offer" := by
  refine ⟨by with_unfolding_all rfl, by decide, by with_unfolding_all rfl⟩

/-- C4 (confirmed): Void succeeds exactly when the entitlement exists in
state USED with a recorded `used_at`, `now` is at most
`used_at + VOID_WINDOW_HOURS` (the boundary instant itself is allowed;
any later instant is rejected), `now` falls on the same calendar day as
`used_at`, and an unvoided redemption row exists. -/
theorem void_succeeds_iff (db : DB) (eid : Nat) (reason : String)
    (uid : Option Nat) (now : Nat) :
    ((void_redemption db eid reason uid now).1.isOk = true) ↔
      (∃ ent, getEntitlement db eid = some ent ∧
        ent.state = EntitlementState.used ∧
        (∃ u, ent.used_at = some u ∧
          now ≤ u + VOID_WINDOW_HOURS * microsPerHour ∧
          dayOf now = dayOf u) ∧
        (db.redemptions.find? (fun r =>
          r.entitlement_id == eid && !r.is_voided)).isSome = true) := by
  cases hent : getEntitlement db eid with
  | none => simp [void_redemption, hent, Except.isOk, Except.toBool]
  | some ent =>
    cases hu : ent.used_at with
    | none => simp [void_redemption, hent, hu, Except.isOk, Except.toBool]
    | some u =>
      by_cases hst : ent.state = EntitlementState.used
      · by_cases hwin : now > u + VOID_WINDOW_HOURS * microsPerHour
        · have hne : ¬ (now ≤ u + VOID_WINDOW_HOURS * microsPerHour) := by omega
          simp [void_redemption, hent, hu, can_void, hst, hwin, hne,
            Except.isOk, Except.toBool]
        · have hle : now ≤ u + VOID_WINDOW_HOURS * microsPerHour := by omega
          by_cases hday : dayOf now = dayOf u
          · cases hrec : db.redemptions.find? (fun r =>
                r.entitlement_id == eid && !r.is_voided) with
            | none =>
              simp [void_redemption, hent, hu, can_void, hst, hwin, hday, hle,
                hrec, Except.isOk, Except.toBool]
            | some red =>
              simp [void_redemption, hent, hu, can_void, hst, hwin, hday, hle,
                hrec, Except.isOk, Except.toBool]
          · simp [void_redemption, hent, hu, can_void, hst, hwin, hday,
              Except.isOk, Except.toBool]
      · simp [void_redemption, hent, hu, can_void, hst, Except.isOk, Except.toBool]

/-- C4 witness: voiding `db4`'s USED entitlement exactly at
`used_at + VOID_WINDOW_HOURS` (same calendar day) succeeds. -/
theorem void_boundary_witness :
    ((void_redemption db4 100 "late but in window void" none
      (t0 + 5 + VOID_WINDOW_HOURS * microsPerHour)).1).isOk = true :=
  (void_succeeds_iff db4 100 "late but in window void" none
      (t0 + 5 + VOID_WINDOW_HOURS * microsPerHour)).mpr
    ⟨entUsed100, by with_unfolding_all rfl, rfl,
     ⟨t0 + 5, rfl, Nat.le_refl _, by decide⟩, by with_unfolding_all rfl⟩

end SVApp

namespace SVApp

/-- C5 (amended): for a BOGO offer with no merchant-provided final
amount, Confirm computes discount = original_price and
final = total_bill − discount with NO clamping: when
original_price > total_bill the recorded final amount is negative. -/
theorem bogo_unclamped (offer : Offer) (tb : Rat)
    (h : offer.offer_type = "bogo") :
    calculate_savings offer tb none =
      some (offer.original_price, tb - offer.original_price) := by
  simp [calculate_savings, h]

/-- C5 witness: the bogo fixture (item price 30) with a 20.00 bill. -/
theorem bogo_unclamped_witness :
    calculate_savings offerBogo 20 none =
      some (offerBogo.original_price, 20 - offerBogo.original_price) :=
  bogo_unclamped offerBogo 20 rfl

/-- C5 counterexample: confirming the bogo offer (free item priced 30)
against a 20.00 bill returns final = −10, a negative amount — the
claimed clamp to 0 does not happen. -/
theorem bogo_negative_final_cex :
    (confirm_redemption dbBogo 1 20 none (t0 + 5)).1.map (fun r => r.final_amount) =
      Except.ok (-10) ∧ ((-10 : Rat) < 0) := by
  refine ⟨by with_unfolding_all rfl, by norm_num⟩

/-- C6 (amended): for a PERCENTAGE offer with no merchant final, the
code removes every "%" from discount_value, parses the remainder as a
decimal ("20%" and "20" both yield 20) and computes the EXACT discount
total_bill × p / 100 with no rounding; final = total_bill − discount. -/
theorem percentage_exact_no_rounding (offer : Offer) (tb p : Rat) (s : String)
    (hty : offer.offer_type = "percentage")
    (hdv : offer.discount_value = some s)
    (hp : parseDecimal (stripPercent s) = some p) :
    calculate_savings offer tb none =
      some (tb * p / 100, tb - tb * p / 100) ∧
    parseDecimal (stripPercent "20%") = some 20 ∧
    parseDecimal (stripPercent "20") = some 20 := by
  refine ⟨?_, by decide, by decide⟩
  simp [calculate_savings, hty, hdv, hp]

/-- C6 witness: the 20 % offer with a 50.00 bill. -/
theorem percentage_exact_witness :
    calculate_savings offerPct 50 none =
      some (50 * 20 / 100, 50 - 50 * 20 / 100) ∧
    parseDecimal (stripPercent "20%") = some 20 ∧
    parseDecimal (stripPercent "20") = some 20 :=
  percentage_exact_no_rounding offerPct 50 20 "20%" rfl rfl (by decide)

/-- C6 counterexample: a 15 % discount of a 10.01 bill is computed as
the exact 1.5015, not the claimed round_half_even value 1.50. -/
theorem percentage_rounding_cex :
    (calculate_savings offerPct15 (1001/100) none).map Prod.fst =
      some (15015/10000) ∧
    roundHalfEven2 ((1001/100) * 15 / 100) = 150/100 ∧
    (15015/10000 : Rat) ≠ 150/100 := by
  refine ⟨by with_unfolding_all rfl, ?_, by norm_num⟩
  have hf : ⌊((1001:Rat)/100 * 15 / 100 * 100)⌋ = (150:Int) := by
    rw [Int.floor_eq_iff]
    norm_num
  simp only [roundHalfEven2, hf]
  norm_num

/-- C7 (amended): when the merchant supplies a final amount, the savings
calculator returns discount = total_bill − final_amount unconditionally;
there is no discount ≥ 0 check, so final_amount > total_bill yields a
negative discount instead of a rejection. -/
theorem merchant_final_computed_unchecked (offer : Offer) (tb fa : Rat) :
    calculate_savings offer tb (some fa) = some (tb - fa, fa) := rfl

/-- C7 counterexample: the request (total 10.00, final 20.00) passes the
schema validation, and Confirm succeeds recording discount = −10 < 0 —
the claimed rejection of negative discounts does not exist. -/
theorem merchant_final_negative_discount_cex :
    validConfirmRequest 10 (some 20) = true ∧
    (confirm_redemption dbBundle 1 10 (some 20) (t0 + 5)).1.map
      (fun r => (r.discount_amount, r.final_amount)) = Except.ok (-10, 20) ∧
    ((-10 : Rat) < 0) := by
  refine ⟨by with_unfolding_all rfl, by with_unfolding_all rfl, by norm_num⟩

end SVApp

namespace SVApp

/-- C8 (confirmed): `generate_proof_token` never mutates the entitlement
(nor the offers, redemptions, or daily markers) on any path; a success
implies the entitlement is owned by the caller, in ACTIVE state, and
strictly before `expires_at`, and its only effect is storing the fresh
token with a 30-second TTL. -/
theorem prove_pure_and_guarded :
    (∀ (db : DB) (eid uid now tok : Nat),
      ((generate_proof_token db eid uid now tok).2).entitlements = db.entitlements ∧
      ((generate_proof_token db eid uid now tok).2).offers = db.offers ∧
      ((generate_proof_token db eid uid now tok).2).redemptions = db.redemptions ∧
      ((generate_proof_token db eid uid now tok).2).dailyKV = db.dailyKV) ∧
    (∀ (db : DB) (eid uid now tok : Nat) (resp : GenerateProofResponse),
      (generate_proof_token db eid uid now tok).1 = Except.ok resp →
      ∃ ent, getEntitlement db eid = some ent ∧ ent.user_id = uid ∧
        ent.state = EntitlementState.active ∧ now < ent.expires_at ∧
        resp.proof_token = tok ∧
        resp.ttl_seconds = QR_PROOF_TOKEN_TTL_SECONDS ∧
        resp.expires_at = now + QR_PROOF_TOKEN_TTL_SECONDS * microsPerSec ∧
        ((generate_proof_token db eid uid now tok).2).tokenKV =
          (tok, { data := { entitlement_id := eid
                            user_id := uid
                            offer_id := ent.offer_id
                            device_id := ent.device_id
                            created_at := now }
                  expiry := now + QR_PROOF_TOKEN_TTL_SECONDS * microsPerSec }) ::
            db.tokenKV) := by
  constructor
  · intro db eid uid now tok
    unfold generate_proof_token
    dsimp only
    repeat' split
    all_goals exact ⟨rfl, rfl, rfl, rfl⟩
  · intro db eid uid now tok resp hok
    cases hent : getEntitlement db eid with
    | none => simp [generate_proof_token, hent] at hok
    | some ent =>
      by_cases huid : ent.user_id = uid
      · by_cases hst : ent.state = EntitlementState.active
        · by_cases hexp : now ≥ ent.expires_at
          · simp [generate_proof_token, hent, huid, hst, hexp, can_generate_qr] at hok
          · have hrun : generate_proof_token db eid uid now tok =
                (Except.ok { proof_token := tok
                             expires_at := now + QR_PROOF_TOKEN_TTL_SECONDS * microsPerSec
                             ttl_seconds := QR_PROOF_TOKEN_TTL_SECONDS },
                 { db with
                   tokenKV := (tok,
                     { data := { entitlement_id := eid
                                 user_id := uid
                                 offer_id := ent.offer_id
                                 device_id := ent.device_id
                                 created_at := now }
                       expiry := now + QR_PROOF_TOKEN_TTL_SECONDS * microsPerSec }) ::
                     db.tokenKV }) := by
              simp [generate_proof_token, hent, huid, hst, hexp, can_generate_qr]
            rw [hrun] at hok
            obtain rfl : _ = resp := Except.ok.inj hok
            refine ⟨ent, ?_, ?_, ?_, ?_, ?_, ?_, ?_, ?_⟩
            · rfl
            · exact huid
            · exact hst
            · omega
            · rfl
            · rfl
            · rfl
            · rw [hrun]
        · simp [generate_proof_token, hent, huid, hst, can_generate_qr] at hok
      · simp [generate_proof_token, hent, huid] at hok

/-- C8 witness: proving entitlement 100 on `db1` with fresh token 555
succeeds, and the guard and frame conclusions hold there. -/
theorem prove_pure_witness :
    ∃ ent, getEntitlement db1 100 = some ent ∧ ent.user_id = 7 ∧
      ent.state = EntitlementState.active ∧ (t0 + 2) < ent.expires_at ∧
      proofResp.proof_token = 555 ∧
      proofResp.ttl_seconds = QR_PROOF_TOKEN_TTL_SECONDS ∧
      proofResp.expires_at = (t0 + 2) + QR_PROOF_TOKEN_TTL_SECONDS * microsPerSec ∧
      ((generate_proof_token db1 100 7 (t0 + 2) 555).2).tokenKV =
        (555, { data := { entitlement_id := 100
                          user_id := 7
                          offer_id := ent.offer_id
                          device_id := ent.device_id
                          created_at := t0 + 2 }
                expiry := (t0 + 2) + QR_PROOF_TOKEN_TTL_SECONDS * microsPerSec }) ::
          db1.tokenKV :=
  prove_pure_and_guarded.2 db1 100 7 (t0 + 2) 555 proofResp (by with_unfolding_all rfl)

/-- C9 (amended): the RateLimiter itself enforces at most 10 requests
per 60-second velocity window and at most 150 per day (default), and an
unavailable KV fails open; but the claim endpoint never invokes it —
the claim handler's outcome is independent of the caller's rate-limit
counters, which pass through untouched. -/
theorem ratelimiter_enforced_but_claim_unlimited :
    (∀ c : Nat, c ≥ VELOCITY_LIMIT → ∀ (d : KVCounter) (dl : Option Nat),
      (check_limits (KVCounter.avail (some c)) d dl).1 = false) ∧
    (∀ (c lim : Nat), c ≥ lim → ∀ v : KVCounter,
      (check_velocity_limit v).1 = true →
      (check_limits v (KVCounter.avail (some c)) (some lim)).1 = false) ∧
    (∀ dl : Option Nat,
      check_limits KVCounter.down KVCounter.down dl = (true, .down, .down)) ∧
    (∀ (db : DB) (v d v2 d2 : KVCounter) (u o : Nat) (dev : Option Nat) (now : Nat),
      (claim_route db v d u o dev now).1 = (claim_route db v2 d2 u o dev now).1 ∧
      (claim_route db v d u o dev now).2 = (v, d)) := by
  refine ⟨?_, ?_, ?_, ?_⟩
  · intro c hc d dl
    simp [check_limits, check_velocity_limit, hc]
  · intro c lim hc v hv
    simp [check_limits, hv, check_daily_quota, hc]
  · intro dl
    rfl
  · intro db v d v2 d2 u o dev now
    exact ⟨rfl, rfl⟩

/-- C9 witness: a caller at the velocity cap (counter 10) is rejected by
the limiter, and a caller at the daily cap (counter 150) likewise. -/
theorem ratelimiter_witness :
    (check_limits (KVCounter.avail (some 10)) (KVCounter.avail (some 0)) none).1 = false ∧
    (check_limits (KVCounter.avail (some 0)) (KVCounter.avail (some 150)) (some 150)).1 = false :=
  ⟨ratelimiter_enforced_but_claim_unlimited.1 10 (by decide) (KVCounter.avail (some 0)) none,
   ratelimiter_enforced_but_claim_unlimited.2.1 150 150 (by decide)
     (KVCounter.avail (some 0)) (by decide)⟩

/-- C9 counterexample: with the caller's velocity counter already at the
limit (10), the RateLimiter would reject, yet the claim endpoint
succeeds and leaves the counters untouched — Claim is not gated by the
rate limiter and never raises RATE_LIMITED. -/
theorem claim_not_rate_limited_cex :
    (check_limits (KVCounter.avail (some 10)) (KVCounter.avail none) none).1 = false ∧
    ((claim_route db0 (KVCounter.avail (some 10)) (KVCounter.avail none) 7 10 none t0).1.1).isOk = true ∧
    (claim_route db0 (KVCounter.avail (some 10)) (KVCounter.avail none) 7 10 none t0).2 =
      (KVCounter.avail (some 10), KVCounter.avail none) := by
  refine ⟨by decide, by with_unfolding_all rfl, rfl⟩

/-- C10 (confirmed): `void_redemption` ignores its caller `user_id`
argument entirely — two different authenticated callers voiding the same
entitlement get identical results and identical successor states, so any
authenticated user can void any entitlement. -/
theorem void_ignores_caller (db : DB) (eid : Nat) (reason : String)
    (u1 u2 : Option Nat) (now : Nat) :
    void_redemption db eid reason u1 now = void_redemption db eid reason u2 now := rfl

end SVApp
